import Mathlib

/-!
Shallow embedding of the layout and sizing engine of
`src/components/KonvaGallery.tsx` (a responsive canvas media gallery).

Numbers are modelled as exact rationals (`ℚ`); JavaScript `Math.round`,
`Math.ceil`, `Math.max`, `Math.min` become their exact counterparts.
Division by zero in `ℚ` yields `0`; where the divergence from JavaScript
(`Infinity`/`NaN`) matters, a checked variant returning `Option ℚ` marks
every division site, so that a `none` result witnesses a division by zero
in the source.
-/

/-- Embeds the `Item` input descriptor type (KonvaGallery.tsx, lines 5-17).
Optional TypeScript fields become `Option`; `type` keeps its source name. -/
structure Item where
  title : String
  url : String
  type : Option String := none
  x : Option ℚ := none
  y : Option ℚ := none
  w : Option ℚ := none
  h : Option ℚ := none
  autoplay : Option Bool := none
  loop : Option Bool := none
  muted : Option Bool := none
  posterUrl : Option String := none
deriving DecidableEq, Repr

/-- A measured natural (intrinsic) media size, as stored in the
`naturalSizes` registry (`Map<string, \x7bw,h\x7d>`). -/
structure NatSize where
  w : ℚ
  h : ℚ
deriving DecidableEq, Repr

/-- The natural-size registry, as the lookup function it provides:
`naturalSizes.get key`. -/
abbrev Registry := String → Option NatSize

/-- Embeds the `FreePos`/`GridPos` union (lines 19-20): a planned position,
tagged with its mode; grid positions retain their row index. -/
inductive Pos where
  | free (x y : ℤ)
  | grid (x y : ℤ) (row : ℕ)
deriving DecidableEq, Repr

def Pos.isFree : Pos → Bool
  | .free _ _ => true
  | .grid _ _ _ => false

def Pos.posX : Pos → ℤ
  | .free x _ => x
  | .grid x _ _ => x

def Pos.posY : Pos → ℤ
  | .free _ y => y
  | .grid _ y _ => y

/-- The row of a grid position; `none` for free positions (the grid sizing
loop skips non-grid positions). -/
def Pos.rowIdx : Pos → Option ℕ
  | .free _ _ => none
  | .grid _ _ r => some r

/-- JavaScript `Math.round`: round half toward positive infinity,
i.e. `⌊q + 1/2⌋`. -/
def mathRound (q : ℚ) : ℤ := ⌊q + 1/2⌋

/-- Embeds `globalScale` (lines 221-225):
`Math.max(0.35, Math.min(1.1, size.w / BASE_WIDTH))` with
`BASE_WIDTH = 2560`. -/
def globalScale (W : ℚ) : ℚ := max (35/100) (min (11/10) (W / 2560))

/-- Embeds `colW` (lines 230-233):
`Math.max(240 * globalScale, size.w / cols - gapX)` with
`gapX = 40 * globalScale`. -/
def colW (W : ℚ) (cols : ℕ) : ℚ :=
  max (240 * globalScale W) (W / cols - 40 * globalScale W)

/-- Embeds `DraggableMedia`'s `internalScale` memo (lines 122-127).
`baseW`/`baseH` are the loaded media's natural dimensions (0 while
unknown; the JavaScript guard `!baseW || !baseH` is falsiness, i.e.
equality with 0). -/
def internalScale (it : Item) (scale maxW baseW baseH : ℚ) : ℚ :=
  if baseW = 0 ∨ baseH = 0 then 1
  else
    match it.w, it.h with
    | some w, _ => (w * scale) / baseW
    | none, some h => (h * scale) / baseH
    | none, none => min 1 ((maxW * scale) / baseW)

/-- Embeds `getRenderedHeight` (lines 252-264): 0 for a missing registry
entry, otherwise `natH * internalScale` where the scale is recomputed
from the declared dimensions with no guard against `natW = 0` or
`natH = 0`. -/
def getRenderedHeight (it : Item) (nat : Option NatSize) (gs maxW : ℚ) : ℚ :=
  match nat with
  | none => 0
  | some n =>
    let isc : ℚ :=
      match it.w, it.h with
      | some w, _ => (w * gs) / n.w
      | none, some h => (h * gs) / n.h
      | none, none => min 1 ((maxW * gs) / n.w)
    n.h * isc

/-- `getRenderedHeight` with every division site checked: returns `none`
exactly when the source would divide by zero (producing `Infinity`/`NaN`
in JavaScript). -/
def getRenderedHeightChecked (it : Item) (nat : Option NatSize) (gs maxW : ℚ) :
    Option ℚ :=
  match nat with
  | none => some 0
  | some n =>
    match it.w, it.h with
    | some w, _ => if n.w = 0 then none else some (n.h * ((w * gs) / n.w))
    | none, some h => if n.h = 0 then none else some (n.h * ((h * gs) / n.h))
    | none, none => if n.w = 0 then none else some (n.h * min 1 ((maxW * gs) / n.w))

/-- Models `JSON.stringify(item)` (the structural identity fallback,
line 203): fields in declaration order, absent optional fields omitted,
booleans as `true`/`false`. String escaping is not modelled; the claims
depend only on this being a structural serialization. -/
def jsonStringify (it : Item) : String :=
  let q : String → String := fun s => "\"" ++ s ++ "\""
  let fields : List (Option String) :=
    [some ("\"title\":" ++ q it.title),
     some ("\"url\":" ++ q it.url),
     it.type.map (fun t => "\"type\":" ++ q t),
     it.x.map (fun v => "\"x\":" ++ toString v),
     it.y.map (fun v => "\"y\":" ++ toString v),
     it.w.map (fun v => "\"w\":" ++ toString v),
     it.h.map (fun v => "\"h\":" ++ toString v),
     it.autoplay.map (fun b => "\"autoplay\":" ++ toString b),
     it.loop.map (fun b => "\"loop\":" ++ toString b),
     it.muted.map (fun b => "\"muted\":" ++ toString b),
     it.posterUrl.map (fun s => "\"posterUrl\":" ++ q s)]
  "\x7b" ++ String.intercalate "," (fields.filterMap id) ++ "\x7d"

/-- Embeds the registry identity key `it.url || it.title ||
JSON.stringify(it)` (lines 203 and 272): JavaScript `||` falls through
on the empty string. -/
def keyOf (it : Item) : String :=
  if it.url ≠ "" then it.url
  else if it.title ≠ "" then it.title
  else jsonStringify it

/-- Embeds the React key the controller puts on each `DraggableMedia`
(line 321): the template literal `(item.title || item.url) ++ "-" ++ i`. -/
def mediaNodeKey (it : Item) (i : ℕ) : String :=
  (if it.title ≠ "" then it.title else it.url) ++ "-" ++ toString i

/-- Embeds the body of the `positions` memo for the item at index `i`
(lines 235-250): free placement when `x` or `y` is declared
(`typeof === "number"`), otherwise grid placement. -/
def planPosition (it : Item) (i : ℕ) (cols : ℕ) (W : ℚ) : Pos :=
  let gs := globalScale W
  if it.x.isSome ∨ it.y.isSome then
    .free (mathRound ((it.x.getD 0) * gs)) (mathRound ((it.y.getD 0) * gs))
  else
    let col := i % cols
    let row := i / cols
    .grid (mathRound (20 * gs + col * (colW W cols + 40 * gs)))
          (mathRound (20 * gs + row * (40 * gs)))
          row

/-- `items.map((item, i) => ...)` with the running index made explicit. -/
def positionsFrom (items : List Item) (i : ℕ) (cols : ℕ) (W : ℚ) : List Pos :=
  match items with
  | [] => []
  | it :: rest => planPosition it i cols W :: positionsFrom rest (i + 1) cols W

/-- Embeds the `positions` memo (lines 235-250). -/
def positions (items : List Item) (cols : ℕ) (W : ℚ) : List Pos :=
  positionsFrom items 0 cols W

/-- The `bottom` of one item in the free-mode sizing loop (line 283):
`pos.y + renderedHeight + labelPad(24)`. -/
def bottomOf (it : Item) (p : Pos) (gs maxW : ℚ) (reg : Registry) : ℚ :=
  (p.posY : ℚ) + getRenderedHeight it (reg (keyOf it)) gs maxW + 24

/-- Embeds the free-mode sizing branch (lines 275-288): fold the running
`maxBottom` from 0, then `Math.max(500, Math.ceil(maxBottom + padding))`. -/
def freeModeHeight (pairs : List (Item × Pos)) (gs maxW : ℚ) (reg : Registry) : ℤ :=
  max 500 (Int.ceil
    (pairs.foldl (fun acc p => max acc (bottomOf p.1 p.2 gs maxW reg)) 0 + 20 * gs))

/-- The value the `rowHeights` map holds at key `r` after the grid sizing
loop (lines 291-300): each insertion takes `max(current || 0, rh)`, so the
entry denotes a fold of `max` from 0 over the rendered heights of the
items in row `r` (free positions are skipped by the loop's guard). -/
def gridRowHeight (pairs : List (Item × Pos)) (gs maxW : ℚ) (reg : Registry)
    (r : ℕ) : ℚ :=
  pairs.foldl
    (fun acc p =>
      if p.2.rowIdx = some r then
        max acc (getRenderedHeight p.1 (reg (keyOf p.1)) gs maxW)
      else acc)
    0

/-- The sorted distinct keys of the `rowHeights` map
(`Array.from(rowHeights.keys()).sort((a,b) => a-b)`, line 302): the rows
occupied by grid positions, in ascending order. -/
def gridRows (pairs : List (Item × Pos)) : List ℕ :=
  (List.range ((pairs.filterMap (fun p => p.2.rowIdx)).foldl max 0 + 1)).filter
    (fun r => (pairs.filterMap (fun p => p.2.rowIdx)).contains r)

/-- Embeds the grid-mode sizing branch (lines 291-311): sum of row heights
over sorted rows, `Math.max(0, rows.length - 1) * gapY` gaps (truncated
subtraction on `ℕ` models the `Math.max(0, ·)`), `rows.length * 24` label
padding, one `padding` on each side, then `Math.max(500, Math.ceil(·))`. -/
def gridModeHeight (pairs : List (Item × Pos)) (gs maxW : ℚ) (reg : Registry) : ℤ :=
  max 500 (Int.ceil (20 * gs
    + (gridRows pairs).foldl (fun acc r => acc + gridRowHeight pairs gs maxW reg r) 0
    + (((gridRows pairs).length - 1 : ℕ) : ℚ) * (40 * gs)
    + ((gridRows pairs).length : ℚ) * 24
    + 20 * gs))

/-- Embeds the canvas-height effect (lines 266-312): height 500 for an
empty item list; otherwise the free algorithm when any position is free,
else the grid algorithm. -/
def canvasHeight (items : List Item) (cols : ℕ) (maxW W : ℚ) (reg : Registry) : ℤ :=
  if items = [] then 500
  else if (positions items cols W).any Pos.isFree then
    freeModeHeight (items.zip (positions items cols W)) (globalScale W) maxW reg
  else
    gridModeHeight (items.zip (positions items cols W)) (globalScale W) maxW reg

/-- One rendered `DraggableMedia` instance as the controller configures it
(lines 318-327): React key, planned position, and the global scale passed
as the `scale` prop. -/
structure NodeInst where
  key : String
  x : ℤ
  y : ℤ
  scale : ℚ
deriving DecidableEq, Repr

/-- The render loop (lines 318-327) with the running index explicit. -/
def galleryNodesFrom (items : List Item) (pos : List Pos) (i : ℕ) (gs : ℚ) :
    List NodeInst :=
  match items, pos with
  | it :: its, p :: ps =>
    ⟨mediaNodeKey it i, p.posX, p.posY, gs⟩ :: galleryNodesFrom its ps (i + 1) gs
  | _, _ => []

/-- Embeds the controller's render output: one node per item, keyed and
positioned (lines 314-331). -/
def galleryNodes (items : List Item) (cols : ℕ) (W : ℚ) : List NodeInst :=
  galleryNodesFrom items (positions items cols W) 0 (globalScale W)

/-! ## Specification-side definitions

These follow the wording of the specification (spec.md §§4.1-4.3, §8) and
of the claims, to be compared with the definitions embedded from the
source above. -/

/-- The spec's `clamp(x, lo, hi)`. -/
def clamp (x lo hi : ℚ) : ℚ := max lo (min hi x)

/-- The maximum of a list of rationals, 0 for the empty list; on a
non-empty list this is the genuine maximum of the elements (no clamp). -/
def listMax : List ℚ → ℚ
  | [] => 0
  | x :: xs => xs.foldl max x

/-- Free-mode sizing as the spec words it: canvas height =
`max(500, ceil(max over all items of (y + renderedHeight + 24) + padding))`. -/
def specFreeHeight (items : List Item) (cols : ℕ) (maxW W : ℚ) (reg : Registry) : ℤ :=
  max 500 (Int.ceil (listMax
    ((items.zip (positions items cols W)).map
      (fun p => bottomOf p.1 p.2 (globalScale W) maxW reg))
    + 20 * globalScale W))

/-- The genuine maximum rendered height among the items of row `r`
(0 if the row is unoccupied), as the claim words it: no clamping at 0. -/
def specRowMax (pairs : List (Item × Pos)) (gs maxW : ℚ) (reg : Registry)
    (r : ℕ) : ℚ :=
  listMax (pairs.filterMap
    (fun p =>
      if p.2.rowIdx = some r then
        some (getRenderedHeight p.1 (reg (keyOf p.1)) gs maxW)
      else none))

/-- Grid-mode sizing exactly as claim C7 words it: canvas height =
`max(500, ceil(sum over rows of the maximum rendered height in that row
+ (numRows-1)*gapY + numRows*24 + 2*padding))`. -/
def specGridHeight (items : List Item) (cols : ℕ) (maxW W : ℚ) (reg : Registry) : ℤ :=
  max 500 (Int.ceil
    ((gridRows (items.zip (positions items cols W))).foldl
       (fun acc r => acc
         + specRowMax (items.zip (positions items cols W)) (globalScale W) maxW reg r) 0
     + (((gridRows (items.zip (positions items cols W))).length - 1 : ℕ) : ℚ)
        * (40 * globalScale W)
     + ((gridRows (items.zip (positions items cols W))).length : ℚ) * 24
     + 2 * (20 * globalScale W)))

/-- Grid-mode sizing with each row's contribution clamped below at 0,
`max(0, maximum rendered height in that row)` — the amendment of claim C7
that matches the source's fold-from-0 row accumulation. -/
def specGridHeightClamped (items : List Item) (cols : ℕ) (maxW W : ℚ)
    (reg : Registry) : ℤ :=
  max 500 (Int.ceil
    ((gridRows (items.zip (positions items cols W))).foldl
       (fun acc r => acc
         + max 0 (specRowMax (items.zip (positions items cols W))
             (globalScale W) maxW reg r)) 0
     + (((gridRows (items.zip (positions items cols W))).length - 1 : ℕ) : ℚ)
        * (40 * globalScale W)
     + ((gridRows (items.zip (positions items cols W))).length : ℚ) * 24
     + 2 * (20 * globalScale W)))

/-- The amended key formula for claim C9: the key assigned to the `i`-th
item's node is `(title if non-empty else url) ++ "-" ++ i`. -/
def specAssignedKeysFrom (items : List Item) (i : ℕ) : List String :=
  match items with
  | [] => []
  | it :: rest =>
    ((if it.title ≠ "" then it.title else it.url) ++ "-" ++ toString i)
      :: specAssignedKeysFrom rest (i + 1)

/-- The amended assigned-key list for a whole item list. -/
def specAssignedKeys (items : List Item) : List String :=
  specAssignedKeysFrom items 0

/-! ## Concrete example inputs -/

/-- A minimal grid-mode item: title and url only. -/
def plainItem (s : String) : Item := { title := s, url := s }

/-- Six plain items, for the `cols = 3` grid example of claim C4. -/
def exItems6 : List Item :=
  [plainItem "0", plainItem "1", plainItem "2",
   plainItem "3", plainItem "4", plainItem "5"]

/-- The claim C5 example item: explicit `x = 100`, `y = 50`. -/
def exItemXY : Item := { title := "p", url := "p", x := some 100, y := some 50 }

/-- An item with declared width 200 (spec §8 registry example). -/
def exItemW200 : Item := { title := "m", url := "m", w := some 200 }

/-- An item with a negative declared width, driving its rendered height
negative once a natural size is known. -/
def exItemNegW : Item := { title := "a", url := "a", w := some (-100) }

/-- A plain companion item for the grid counterexample. -/
def exItemPlain : Item := { title := "b", url := "b" }

/-- Registry for the grid counterexample: `exItemNegW` measures 100x100,
`exItemPlain` measures 480x1000. -/
def exRegGrid : Registry := fun k =>
  if k = "a" then some ⟨100, 100⟩
  else if k = "b" then some ⟨480, 1000⟩
  else none

/-- A free-mode item: explicit `x = 0`. -/
def exItemFree : Item := { title := "f", url := "f", x := some 0 }

/-- An item whose `title` and `url` are both non-empty and differ. -/
def exItemTitleUrl : Item := { title := "b", url := "a.png" }

/-- The registry lookup that knows nothing yet. -/
def emptyReg : Registry := fun _ => none

/-! ## Helper lemmas -/

theorem le_globalScale (W : ℚ) : 35/100 ≤ globalScale W := le_max_left _ _

theorem globalScale_le (W : ℚ) : globalScale W ≤ 11/10 :=
  max_le (by norm_num) (min_le_left _ _)

theorem globalScale_nonneg (W : ℚ) : 0 ≤ globalScale W :=
  le_trans (by norm_num) (le_globalScale W)

theorem mathRound_eq_of (q : ℚ) (n : ℤ) (h1 : (n : ℚ) ≤ q + 1/2)
    (h2 : q + 1/2 < n + 1) : mathRound q = n := by
  rw [mathRound]
  exact Int.floor_eq_iff.mpr ⟨h1, h2⟩

theorem intCeil_eq_of (q : ℚ) (n : ℤ) (h1 : (n : ℚ) - 1 < q) (h2 : q ≤ n) :
    Int.ceil q = n :=
  Int.ceil_eq_iff.mpr ⟨h1, h2⟩

theorem foldl_max_init (l : List ℚ) (a b : ℚ) :
    l.foldl max (max a b) = max a (l.foldl max b) := by
  induction l generalizing b with
  | nil => rfl
  | cons x xs ih =>
    show xs.foldl max (max (max a b) x) = max a (xs.foldl max (max b x))
    rw [max_assoc]
    exact ih (max b x)

theorem foldl_max_zero_cons (x : ℚ) (xs : List ℚ) :
    (x :: xs).foldl max 0 = max 0 (listMax (x :: xs)) := by
  show xs.foldl max (max 0 x) = max 0 (xs.foldl max x)
  exact foldl_max_init xs 0 x

theorem foldl_ite_max (l : List (Item × Pos)) (p : Item × Pos → Prop)
    [DecidablePred p] (f : Item × Pos → ℚ) (a : ℚ) :
    l.foldl (fun acc q => if p q then max acc (f q) else acc) a
      = (l.filterMap (fun q => if p q then some (f q) else none)).foldl max a := by
  induction l generalizing a with
  | nil => rfl
  | cons x xs ih =>
    by_cases h : p x
    · simp only [List.foldl_cons, List.filterMap_cons, h, if_pos]
      exact ih (max a (f x))
    · simp only [List.foldl_cons, List.filterMap_cons, h, if_neg, not_false_iff]
      exact ih a

theorem gridRowHeight_eq_clamped (pairs : List (Item × Pos)) (gs maxW : ℚ)
    (reg : Registry) (r : ℕ) :
    gridRowHeight pairs gs maxW reg r = max 0 (specRowMax pairs gs maxW reg r) := by
  unfold gridRowHeight specRowMax
  rw [foldl_ite_max]
  generalize (pairs.filterMap
    (fun p =>
      if p.2.rowIdx = some r then
        some (getRenderedHeight p.1 (reg (keyOf p.1)) gs maxW)
      else none)) = l
  cases l with
  | nil => simp [listMax]
  | cons x xs => exact foldl_max_zero_cons x xs

theorem positionsFrom_length (items : List Item) (i cols : ℕ) (W : ℚ) :
    (positionsFrom items i cols W).length = items.length := by
  induction items generalizing i with
  | nil => rfl
  | cons it rest ih => simp [positionsFrom, ih]

theorem positions_length (items : List Item) (cols : ℕ) (W : ℚ) :
    (positions items cols W).length = items.length :=
  positionsFrom_length items 0 cols W

theorem galleryNodesFrom_keys (items : List Item) (pos : List Pos) (i : ℕ)
    (gs : ℚ) (h : items.length ≤ pos.length) :
    (galleryNodesFrom items pos i gs).map NodeInst.key
      = specAssignedKeysFrom items i := by
  induction items generalizing pos i with
  | nil => cases pos <;> rfl
  | cons it rest ih =>
    cases pos with
    | nil => simp at h
    | cons p ps =>
      simp only [galleryNodesFrom, List.map_cons, specAssignedKeysFrom]
      rw [ih ps (i + 1) (Nat.le_of_succ_le_succ h)]
      rfl

theorem positionsFrom_get (items : List Item) (cols : ℕ) (W : ℚ) :
    ∀ (n i : ℕ), (positionsFrom items n cols W).get? i
      = (items.get? i).map (fun it => planPosition it (n + i) cols W) := by
  induction items with
  | nil => intro n i; cases i <;> rfl
  | cons it rest ih =>
    intro n i
    cases i with
    | zero => rfl
    | succ k =>
      show (positionsFrom rest (n + 1) cols W).get? k = _
      rw [ih (n + 1) k]
      have harith : n + 1 + k = n + (k + 1) := by omega
      rw [harith]
      rfl

/-! ## Claim theorems -/

/-- Claim C1: for every item list, container width, and natural-size
registry state (and any column count and max width), the canvas height
computed by the sizing pass — free-mode, grid-mode, or empty-list
branch — is at least 500. -/
theorem canvasHeight_ge_500 (items : List Item) (cols : ℕ) (maxW W : ℚ)
    (reg : Registry) : 500 ≤ canvasHeight items cols maxW W reg := by
  unfold canvasHeight
  split
  · exact le_refl 500
  · split
    · exact le_max_left _ _
    · exact le_max_left _ _

/-- Claim C2: the global scale equals `W / 2560` clamped to
`[0.35, 1.1]`, lies in that interval for every container width, and in
particular width 2560 yields 1, width 100 yields 0.35 and width 5000
yields 1.1. -/
theorem globalScale_clamp_spec :
    (∀ W : ℚ, globalScale W = clamp (W / 2560) (35/100) (11/10)
      ∧ 35/100 ≤ globalScale W ∧ globalScale W ≤ 11/10)
    ∧ globalScale 2560 = 1 ∧ globalScale 100 = 35/100
    ∧ globalScale 5000 = 11/10 := by
  refine ⟨fun W => ⟨rfl, le_globalScale W, globalScale_le W⟩, ?_, ?_, ?_⟩ <;>
    norm_num [globalScale]

/-- Claim C8: for the empty item list the canvas height is exactly 500
(both sizing algorithms are skipped) and zero media nodes are produced. -/
theorem emptyList_spec :
    (∀ (cols : ℕ) (maxW W : ℚ) (reg : Registry),
        canvasHeight [] cols maxW W reg = 500)
    ∧ ∀ (cols : ℕ) (W : ℚ), galleryNodes [] cols W = [] :=
  ⟨fun _ _ _ _ => rfl, fun _ _ => rfl⟩

/-- Claim C9 counterexample: for an item whose `url` and `title` are both
non-empty but differ, the key the controller assigns to its node is not
the identity key — the source keys nodes by `(title || url) + "-" + index`,
not by the url-first identity key. -/
theorem assignedKey_ne_identityKey :
    (galleryNodes [exItemTitleUrl] 3 2560).map NodeInst.key
      ≠ [keyOf exItemTitleUrl] := by
  decide

/-- Claim C9 (amended): the key the controller assigns to the node of the
item at index `i` is `(title if non-empty, else url) ++ "-" ++ i`; it is a
pure function of the item and its index (hence stable across re-renders
with an identical list), but it is not the url-first registry identity
key. -/
theorem galleryNodes_keys_amended (items : List Item) (cols : ℕ) (W : ℚ) :
    (galleryNodes items cols W).map NodeInst.key = specAssignedKeys items := by
  unfold galleryNodes specAssignedKeys
  exact galleryNodesFrom_keys items _ 0 _ (le_of_eq (positions_length items cols W).symm)

/-- Claim C5: an item with `x` or `y` declared is planned in free mode at
`(round(x*globalScale), round(y*globalScale))` (absent coordinate
defaulting to 0); the mode is a pure function of the item alone; the
concrete example `x=100, y=50` at `globalScale = 0.5` resolves to
`(50, 25)`. -/
theorem freePlacement_spec (it : Item) (i cols : ℕ) (W : ℚ)
    (hfree : it.x.isSome ∨ it.y.isSome) :
    planPosition it i cols W
      = .free (mathRound ((it.x.getD 0) * globalScale W))
              (mathRound ((it.y.getD 0) * globalScale W))
    ∧ (planPosition it i cols W).isFree = true
    ∧ (∀ (j cols₂ : ℕ) (W₂ : ℚ),
        (planPosition it i cols W).isFree = (planPosition it j cols₂ W₂).isFree)
    ∧ planPosition exItemXY 0 3 1280 = .free 50 25 := by
  have hg : globalScale 1280 = 1/2 := by
    norm_num [globalScale, max_def, min_def]
  refine ⟨?_, ?_, ?_, ?_⟩
  · simp only [planPosition]
    rw [if_pos hfree]
  · simp only [planPosition]
    rw [if_pos hfree]
    rfl
  · intro j cols₂ W₂
    simp only [planPosition]
    by_cases h : it.x.isSome ∨ it.y.isSome
    · rw [if_pos h, if_pos h]
      rfl
    · rw [if_neg h, if_neg h]
      rfl
  · simp only [planPosition, exItemXY, Option.isSome_some, Option.getD_some, hg]
    rw [if_pos (Or.inl trivial)]
    congr 1
    · exact mathRound_eq_of _ 50 (by norm_num) (by norm_num)
    · exact mathRound_eq_of _ 25 (by norm_num) (by norm_num)

/-- Claim C5 witness at the concrete example item. -/
theorem freePlacement_spec_witness :
    (exItemXY.x.isSome ∨ exItemXY.y.isSome)
    ∧ planPosition exItemXY 2 3 1280
        = .free (mathRound ((exItemXY.x.getD 0) * globalScale 1280))
                (mathRound ((exItemXY.y.getD 0) * globalScale 1280)) :=
  ⟨Or.inl rfl, (freePlacement_spec exItemXY 2 3 1280 (Or.inl rfl)).1⟩

theorem globalScale_2560 : globalScale 2560 = 1 := by
  norm_num [globalScale, max_def, min_def]

theorem colW_2560_3 : colW 2560 3 = 2440/3 := by
  rw [colW, globalScale_2560]
  rw [max_def]
  norm_num

theorem positions_exItems6 :
    positions exItems6 3 2560
      = [.grid 20 20 0, .grid 873 20 0, .grid 1727 20 0,
         .grid 20 60 1, .grid 873 60 1, .grid 1727 60 1] := by
  simp only [positions, positionsFrom, planPosition, exItems6, plainItem,
    Option.isSome_none, Bool.false_eq_true, or_self, if_false,
    globalScale_2560, colW_2560_3, List.cons.injEq, Pos.grid.injEq, and_true]
  norm_num
  repeat' apply And.intro
  all_goals apply mathRound_eq_of <;> norm_num

/-- Claim C4: an item at index `i` with neither `x` nor `y` declared is
planned at column `i mod cols`, row `i div cols`, with
`x = round(padding + col*(colW + gapX))` and `y = round(padding + row*gapY)`
where `padding = 20*globalScale`, `gapX = gapY = 40*globalScale` and
`colW = max(240*globalScale, W/cols - gapX)`; with `cols = 3`, six plain
items map to rows 0,0,0,1,1,1 and columns 0,1,2,0,1,2 (concrete planned
positions listed). -/
theorem gridPlacement_spec (items : List Item) (cols : ℕ) (W : ℚ) (i : ℕ)
    (it : Item) (_hcols : 0 < cols) (hit : items.get? i = some it)
    (hx : it.x = none) (hy : it.y = none) :
    (positions items cols W).get? i
      = some (.grid
          (mathRound (20 * globalScale W
            + (i % cols : ℕ) * (colW W cols + 40 * globalScale W)))
          (mathRound (20 * globalScale W + (i / cols : ℕ) * (40 * globalScale W)))
          (i / cols))
    ∧ positions exItems6 3 2560
      = [.grid 20 20 0, .grid 873 20 0, .grid 1727 20 0,
         .grid 20 60 1, .grid 873 60 1, .grid 1727 60 1] := by
  refine ⟨?_, positions_exItems6⟩
  rw [positions, positionsFrom_get items cols W 0 i, hit]
  simp only [Option.map_some', Nat.zero_add]
  simp only [planPosition]
  rw [if_neg (by simp [hx, hy])]

/-- Claim C4 witness at index 4 of the six-item example list. -/
theorem gridPlacement_spec_witness :
    0 < 3 ∧ exItems6.get? 4 = some (plainItem "4")
    ∧ (plainItem "4").x = none ∧ (plainItem "4").y = none
    ∧ ((positions exItems6 3 2560).get? 4
        = some (.grid
            (mathRound (20 * globalScale 2560
              + ((4 % 3 : ℕ) : ℚ) * (colW 2560 3 + 40 * globalScale 2560)))
            (mathRound (20 * globalScale 2560
              + ((4 / 3 : ℕ) : ℚ) * (40 * globalScale 2560)))
            (4 / 3))
      ∧ positions exItems6 3 2560
        = [.grid 20 20 0, .grid 873 20 0, .grid 1727 20 0,
           .grid 20 60 1, .grid 873 60 1, .grid 1727 60 1]) :=
  ⟨by norm_num, rfl, rfl, rfl,
    gridPlacement_spec exItems6 3 2560 4 (plainItem "4") (by norm_num) rfl rfl rfl⟩

/-- Claim C3: with a known natural size (both components non-zero, the
source's falsiness guard), the per-item effective scale is
`(w*scale)/natW` when a width is declared (width preceding height),
else `(h*scale)/natH` when a height is declared, else
`min(1, (maxW*scale)/natW)`; with an unknown natural size the effective
scale is 1; `getRenderedHeight` is `natH * internalScale` for a present
registry entry and 0 for a missing one. -/
theorem scaleResolver_spec (it : Item) (gs maxW baseW baseH : ℚ) (n : NatSize) :
    (baseW ≠ 0 → baseH ≠ 0 →
      internalScale it gs maxW baseW baseH
        = (match it.w, it.h with
           | some w, _ => (w * gs) / baseW
           | none, some h => (h * gs) / baseH
           | none, none => min 1 ((maxW * gs) / baseW)))
    ∧ (baseW = 0 ∨ baseH = 0 → internalScale it gs maxW baseW baseH = 1)
    ∧ (n.w ≠ 0 → n.h ≠ 0 →
        getRenderedHeight it (some n) gs maxW
          = n.h * internalScale it gs maxW n.w n.h)
    ∧ getRenderedHeight it none gs maxW = 0 := by
  refine ⟨?_, ?_, ?_, rfl⟩
  · intro h1 h2
    rw [internalScale, if_neg (not_or.mpr ⟨h1, h2⟩)]
  · intro h
    rw [internalScale, if_pos h]
  · intro h1 h2
    rw [getRenderedHeight, internalScale, if_neg (not_or.mpr ⟨h1, h2⟩)]

/-- Claim C3 witness: the spec §8 registry example — declared width 200,
measured natural size 1000x500 at global scale 1/2 — plus the
unknown-size defaults, via the theorem at concrete inputs. -/
theorem scaleResolver_spec_witness :
    ((1000 : ℚ) ≠ 0 ∧ (500 : ℚ) ≠ 0)
    ∧ internalScale exItemW200 (globalScale 1280) 480 1000 500
        = (200 * globalScale 1280) / 1000
    ∧ internalScale exItemW200 (globalScale 1280) 480 0 0 = 1
    ∧ getRenderedHeight exItemW200 (some ⟨1000, 500⟩) (globalScale 1280) 480
        = 500 * internalScale exItemW200 (globalScale 1280) 480 1000 500
    ∧ getRenderedHeight exItemW200 none (globalScale 1280) 480 = 0 :=
  ⟨⟨by norm_num, by norm_num⟩,
   (scaleResolver_spec exItemW200 (globalScale 1280) 480 1000 500
      ⟨1000, 500⟩).1 (by norm_num) (by norm_num),
   (scaleResolver_spec exItemW200 (globalScale 1280) 480 0 0
      ⟨1000, 500⟩).2.1 (Or.inl rfl),
   (scaleResolver_spec exItemW200 (globalScale 1280) 480 1000 500
      ⟨1000, 500⟩).2.2.1 (by norm_num) (by norm_num),
   (scaleResolver_spec exItemW200 (globalScale 1280) 480 1000 500
      ⟨1000, 500⟩).2.2.2⟩

theorem foldl_max_bottom (pairs : List (Item × Pos)) (gs maxW : ℚ) (reg : Registry) :
    pairs.foldl (fun acc p => max acc (bottomOf p.1 p.2 gs maxW reg)) 0
      = (pairs.map (fun p => bottomOf p.1 p.2 gs maxW reg)).foldl max 0 :=
  (List.foldl_map _ _ _ _).symm

theorem max500_ceil_fold_eq (l : List ℚ) (p : ℚ) (hl : l ≠ [])
    (_hp0 : 0 ≤ p) (hp : p ≤ 22) :
    max 500 (Int.ceil (l.foldl max 0 + p)) = max 500 (Int.ceil (listMax l + p)) := by
  cases l with
  | nil => exact absurd rfl hl
  | cons b bs =>
    rw [foldl_max_zero_cons]
    generalize listMax (b :: bs) = M
    rcases le_or_lt 0 M with hM | hM
    · rw [max_eq_right hM]
    · rw [max_eq_left hM.le]
      have h1 : Int.ceil ((0 : ℚ) + p) ≤ 500 := Int.ceil_le.mpr (by push_cast; linarith)
      have h2 : Int.ceil (M + p) ≤ 500 := Int.ceil_le.mpr (by push_cast; linarith)
      rw [max_eq_left h1, max_eq_left h2]

theorem zip_positions_ne_nil (items : List Item) (cols : ℕ) (W : ℚ)
    (hne : items ≠ []) : items.zip (positions items cols W) ≠ [] := by
  intro h0
  apply hne
  have hlen := congrArg List.length h0
  rw [List.length_zip, positions_length, min_self] at hlen
  exact List.length_eq_zero.mp hlen

/-- Claim C6: for a non-empty item list with at least one free-mode item
(mixed lists included — the free algorithm covers the whole list), the
canvas height equals `max(500, ceil(max over all items of
(y + renderedHeight + 24) + padding))`, the rendered height coming from
the registry entry (0 when unknown). -/
theorem freeSizing_spec (items : List Item) (cols : ℕ) (maxW W : ℚ)
    (reg : Registry) (hne : items ≠ [])
    (hfree : (positions items cols W).any Pos.isFree = true) :
    canvasHeight items cols maxW W reg = specFreeHeight items cols maxW W reg := by
  unfold canvasHeight specFreeHeight freeModeHeight
  rw [if_neg hne, if_pos hfree]
  rw [foldl_max_bottom]
  apply max500_ceil_fold_eq
  · simpa using zip_positions_ne_nil items cols W hne
  · exact mul_nonneg (by norm_num) (globalScale_nonneg W)
  · linarith [globalScale_le W]

/-- Claim C6 witness: a single free-positioned item with an empty
registry. -/
theorem freeSizing_spec_witness :
    ([exItemFree] ≠ ([] : List Item))
    ∧ (positions [exItemFree] 3 2560).any Pos.isFree = true
    ∧ canvasHeight [exItemFree] 3 480 2560 emptyReg
        = specFreeHeight [exItemFree] 3 480 2560 emptyReg :=
  ⟨by simp, by simp [positions, positionsFrom, planPosition, exItemFree, Pos.isFree],
   freeSizing_spec [exItemFree] 3 480 2560 emptyReg (by simp)
     (by simp [positions, positionsFrom, planPosition, exItemFree, Pos.isFree])⟩

/-- Claim C7 (amended): for a non-empty item list with no free-mode item,
the canvas height equals `max(500, ceil(sum over rows of
max(0, maximum rendered height in that row) + (numRows-1)*gapY
+ numRows*24 + 2*padding))` — each row's contribution clamped below at 0,
as the source's fold-from-0 row accumulation does. -/
theorem gridSizing_amended (items : List Item) (cols : ℕ) (maxW W : ℚ)
    (reg : Registry) (hne : items ≠ [])
    (hgrid : (positions items cols W).any Pos.isFree = false) :
    canvasHeight items cols maxW W reg
      = specGridHeightClamped items cols maxW W reg := by
  unfold canvasHeight specGridHeightClamped gridModeHeight
  rw [if_neg hne, if_neg (by simp [hgrid])]
  simp only [gridRowHeight_eq_clamped]
  congr 1
  congr 1
  ring

/-- Claim C7 witness: a single plain grid item with an empty registry. -/
theorem gridSizing_amended_witness :
    ([plainItem "g"] ≠ ([] : List Item))
    ∧ (positions [plainItem "g"] 3 2560).any Pos.isFree = false
    ∧ canvasHeight [plainItem "g"] 3 480 2560 emptyReg
        = specGridHeightClamped [plainItem "g"] 3 480 2560 emptyReg :=
  ⟨by simp, by simp [positions, positionsFrom, planPosition, plainItem, Pos.isFree],
   gridSizing_amended [plainItem "g"] 3 480 2560 emptyReg (by simp)
     (by simp [positions, positionsFrom, planPosition, plainItem, Pos.isFree])⟩

theorem colW_2560_1 : colW 2560 1 = 2520 := by
  rw [colW, globalScale_2560]
  rw [max_def]
  norm_num

theorem positions_c7 :
    positions [exItemNegW, exItemPlain] 1 2560 = [.grid 20 20 0, .grid 20 60 1] := by
  simp only [positions, positionsFrom, planPosition, exItemNegW, exItemPlain,
    Option.isSome_none, Bool.false_eq_true, or_self, if_false,
    globalScale_2560, colW_2560_1, List.cons.injEq, Pos.grid.injEq, and_true]
  norm_num
  repeat' apply And.intro
  all_goals apply mathRound_eq_of <;> norm_num

theorem gridRows_c7 :
    gridRows [(exItemNegW, Pos.grid 20 20 0), (exItemPlain, Pos.grid 20 60 1)]
      = [0, 1] := by
  decide

theorem keyOf_negW : keyOf exItemNegW = "a" := rfl

theorem keyOf_plain : keyOf exItemPlain = "b" := rfl

theorem exRegGrid_a : exRegGrid "a" = some ⟨100, 100⟩ := rfl

theorem exRegGrid_b : exRegGrid "b" = some ⟨480, 1000⟩ := rfl

theorem grh_c7_negW : getRenderedHeight exItemNegW (some ⟨100, 100⟩) 1 480 = -100 := by
  simp only [getRenderedHeight, exItemNegW]
  norm_num

theorem grh_c7_plain : getRenderedHeight exItemPlain (some ⟨480, 1000⟩) 1 480 = 1000 := by
  simp only [getRenderedHeight, exItemPlain]
  norm_num [min_def]

theorem gridRowHeight_c7_0 :
    gridRowHeight [(exItemNegW, Pos.grid 20 20 0), (exItemPlain, Pos.grid 20 60 1)]
      1 480 exRegGrid 0 = 0 := by
  simp only [gridRowHeight, List.foldl_cons, List.foldl_nil, Pos.rowIdx,
    keyOf_negW, keyOf_plain, exRegGrid_a, exRegGrid_b, grh_c7_negW, grh_c7_plain]
  norm_num [max_def]

theorem gridRowHeight_c7_1 :
    gridRowHeight [(exItemNegW, Pos.grid 20 20 0), (exItemPlain, Pos.grid 20 60 1)]
      1 480 exRegGrid 1 = 1000 := by
  simp only [gridRowHeight, List.foldl_cons, List.foldl_nil, Pos.rowIdx,
    keyOf_negW, keyOf_plain, exRegGrid_a, exRegGrid_b, grh_c7_negW, grh_c7_plain]
  norm_num [max_def]

theorem canvasHeight_c7_value :
    canvasHeight [exItemNegW, exItemPlain] 1 480 2560 exRegGrid = 1128 := by
  unfold canvasHeight
  rw [if_neg (by simp), if_neg (by rw [positions_c7]; simp [Pos.isFree])]
  rw [positions_c7]
  rw [show ([exItemNegW, exItemPlain].zip [Pos.grid 20 20 0, Pos.grid 20 60 1])
        = [(exItemNegW, Pos.grid 20 20 0), (exItemPlain, Pos.grid 20 60 1)] from rfl]
  unfold gridModeHeight
  rw [globalScale_2560, gridRows_c7]
  simp only [List.foldl_cons, List.foldl_nil, List.length_cons, List.length_nil]
  rw [gridRowHeight_c7_0, gridRowHeight_c7_1]
  norm_num

theorem specRowMax_c7_0 :
    specRowMax [(exItemNegW, Pos.grid 20 20 0), (exItemPlain, Pos.grid 20 60 1)]
      1 480 exRegGrid 0 = -100 := by
  simp [specRowMax, Pos.rowIdx, keyOf_negW, keyOf_plain, exRegGrid_a, exRegGrid_b,
    grh_c7_negW, grh_c7_plain, listMax]

theorem specRowMax_c7_1 :
    specRowMax [(exItemNegW, Pos.grid 20 20 0), (exItemPlain, Pos.grid 20 60 1)]
      1 480 exRegGrid 1 = 1000 := by
  simp [specRowMax, Pos.rowIdx, keyOf_negW, keyOf_plain, exRegGrid_a, exRegGrid_b,
    grh_c7_negW, grh_c7_plain, listMax]

theorem specGridHeight_c7_value :
    specGridHeight [exItemNegW, exItemPlain] 1 480 2560 exRegGrid = 1028 := by
  unfold specGridHeight
  rw [positions_c7]
  rw [show ([exItemNegW, exItemPlain].zip [Pos.grid 20 20 0, Pos.grid 20 60 1])
        = [(exItemNegW, Pos.grid 20 20 0), (exItemPlain, Pos.grid 20 60 1)] from rfl]
  rw [globalScale_2560, gridRows_c7]
  simp only [List.foldl_cons, List.foldl_nil, List.length_cons, List.length_nil]
  rw [specRowMax_c7_0, specRowMax_c7_1]
  norm_num

/-- Claim C7 counterexample: with cols = 1, width 2560, an item of
declared width -100 measured 100x100 in row 0 and a plain item measured
480x1000 in row 1, the code computes height 1128 (its per-row fold clamps
row 0's negative maximum to 0) while the claimed formula gives 1028. -/
theorem gridSizing_claim_counterexample :
    canvasHeight [exItemNegW, exItemPlain] 1 480 2560 exRegGrid
      ≠ specGridHeight [exItemNegW, exItemPlain] 1 480 2560 exRegGrid := by
  rw [canvasHeight_c7_value, specGridHeight_c7_value]
  decide

/-- Claim C10 counterexample: the entry 100x100 is strictly positive, yet
for an item with declared width -100 `getRenderedHeight` returns -100 —
the "non-negative" part of the claim fails without a sign condition on
the declared dimensions. -/
theorem renderedHeight_nonneg_counterexample :
    getRenderedHeight exItemNegW (some ⟨100, 100⟩) (globalScale 2560) 480 < 0 := by
  rw [globalScale_2560]
  simp only [getRenderedHeight, exItemNegW]
  norm_num

/-- Claim C10 (amended): for a registry entry with strictly positive
width and height, `getRenderedHeight` performs no division by zero (the
checked evaluation succeeds) and, provided the item's declared dimensions
are non-negative and the max width is non-negative, returns a
non-negative rational; the only guard in the code is for a missing
entry — a `\x7bw:0,h:0\x7d` entry with a declared width makes the checked
evaluation fail on a division by zero. -/
theorem renderedHeight_safety_amended (it : Item) (W maxW : ℚ) (n : NatSize)
    (hw : 0 < n.w) (hh : 0 < n.h)
    (hdw : ∀ w ∈ it.w, 0 ≤ w) (hdh : ∀ h ∈ it.h, 0 ≤ h) (hm : 0 ≤ maxW) :
    getRenderedHeightChecked it (some n) (globalScale W) maxW
        = some (getRenderedHeight it (some n) (globalScale W) maxW)
    ∧ 0 ≤ getRenderedHeight it (some n) (globalScale W) maxW
    ∧ getRenderedHeightChecked exItemW200 (some ⟨0, 0⟩) (globalScale W) maxW
        = none := by
  have hgs : 0 ≤ globalScale W := globalScale_nonneg W
  refine ⟨?_, ?_, ?_⟩
  · cases hw2 : it.w with
    | some w => simp [getRenderedHeightChecked, getRenderedHeight, hw2, hw.ne']
    | none =>
      cases hh2 : it.h with
      | some h => simp [getRenderedHeightChecked, getRenderedHeight, hw2, hh2, hh.ne']
      | none => simp [getRenderedHeightChecked, getRenderedHeight, hw2, hh2, hw.ne']
  · cases hw2 : it.w with
    | some w =>
      have hw0 : 0 ≤ w := hdw w (by simp [hw2])
      simp only [getRenderedHeight, hw2]
      exact mul_nonneg hh.le (div_nonneg (mul_nonneg hw0 hgs) hw.le)
    | none =>
      cases hh2 : it.h with
      | some h =>
        have hh0 : 0 ≤ h := hdh h (by simp [hh2])
        simp only [getRenderedHeight, hw2, hh2]
        exact mul_nonneg hh.le (div_nonneg (mul_nonneg hh0 hgs) hh.le)
      | none =>
        simp only [getRenderedHeight, hw2, hh2]
        exact mul_nonneg hh.le
          (le_min (by norm_num) (div_nonneg (mul_nonneg hm hgs) hw.le))
  · simp [getRenderedHeightChecked, exItemW200]

/-- Claim C10 witness: the declared-width-200 item against a 1000x500
entry at width 1280. -/
theorem renderedHeight_safety_amended_witness :
    ((0 : ℚ) < 1000 ∧ (0 : ℚ) < 500 ∧ (∀ w ∈ exItemW200.w, (0 : ℚ) ≤ w)
      ∧ (∀ h ∈ exItemW200.h, (0 : ℚ) ≤ h) ∧ (0 : ℚ) ≤ 480)
    ∧ (getRenderedHeightChecked exItemW200 (some ⟨1000, 500⟩) (globalScale 1280) 480
          = some (getRenderedHeight exItemW200 (some ⟨1000, 500⟩) (globalScale 1280) 480)
      ∧ 0 ≤ getRenderedHeight exItemW200 (some ⟨1000, 500⟩) (globalScale 1280) 480
      ∧ getRenderedHeightChecked exItemW200 (some ⟨0, 0⟩) (globalScale 1280) 480
          = none) :=
  ⟨⟨by norm_num, by norm_num, by simp [exItemW200], by simp [exItemW200], by norm_num⟩,
   renderedHeight_safety_amended exItemW200 1280 480 ⟨1000, 500⟩
     (by norm_num) (by norm_num) (by simp [exItemW200]) (by simp [exItemW200])
     (by norm_num)⟩
